import Mathlib

/-!
Verification of the operation-dispatch and format-adaptation layer of an
OpenSSL pkcs11-sign provider (file src/ossl.c), shallowly embedded in Lean.

The embedding covers:
* `ossl_ecdsa_signature` — DER encoding of a raw ECDSA signature
  (concatenated big-endian scalar pair), including its sizing mode;
* `fwd_get_func` — resolution of a backend function from
  {operation id, algorithm name, function id}, with the per-handle
  algorithm-table cache, the query/unquery events, and the
  colon-delimited alias matching done with `strcasestr`;
* `fwd_get_algo` and the typed wrapper functions.

External OpenSSL primitives called by this code (`BN_bin2bn`,
`i2d_ECDSA_SIG`, `OSSL_PROVIDER_query_operation`) are modelled by their
documented behaviour: byte lists stand for byte buffers, `Nat` for
arbitrary-precision non-negative integers, and the backend is a pure
query function together with event counters for query/unquery calls.
Allocation failure (`ECDSA_SIG_new`, `BN_bin2bn` returning NULL) is not
modelled: allocation always succeeds.  A C-level null-pointer
dereference (undefined behaviour) is modelled as `Option.none` in the
result of the embedded function.
-/

/- ===================== DER signature codec (src/ossl.c:74-123) ========== -/

/-- Big-endian base-256 digits of `n`, most significant first; `[]` for 0.
`fuel` bounds the recursion; `natBytes` supplies enough fuel. -/
def natBytesAux : Nat → Nat → List Nat
  | 0, _ => []
  | fuel + 1, n => if n = 0 then [] else natBytesAux fuel (n / 256) ++ [n % 256]

/-- Minimal big-endian byte representation of a natural number. -/
def natBytes (n : Nat) : List Nat := natBytesAux n n

/-- `BN_bin2bn`: a big-endian byte buffer read as an unsigned integer. -/
def bin2bn (bytes : List Nat) : Nat := bytes.foldl (fun acc b => acc * 256 + b) 0

/-- Content octets of a DER INTEGER holding the non-negative value `n`:
minimal big-endian bytes, a single zero octet for 0, and a leading zero
octet when the top bit of the first byte is set. -/
def derIntContent (n : Nat) : List Nat :=
  match natBytes n with
  | [] => [0]
  | b :: bs => if 128 ≤ b then 0 :: b :: bs else b :: bs

/-- DER length octets for a content length `l` (short and long form). -/
def derLenBytes (l : Nat) : List Nat :=
  if l < 128 then [l] else (128 + (natBytes l).length) :: natBytes l

/-- A complete DER INTEGER encoding of the non-negative value `n`. -/
def derInt (n : Nat) : List Nat :=
  2 :: derLenBytes (derIntContent n).length ++ derIntContent n

/-- `i2d_ECDSA_SIG`: DER encoding of `ECDSA-Sig-Value ::= SEQUENCE { r INTEGER,
s INTEGER }` for non-negative `r`, `s`. -/
def i2d_ECDSA_SIG_model (r s : Nat) : List Nat :=
  48 :: derLenBytes (derInt r ++ derInt s).length ++ (derInt r ++ derInt s)

/-- The DER signature `ossl_ecdsa_signature` builds from `raw_siglen` bytes of
the raw buffer: `r` from the first `raw_siglen / 2` bytes, `s` from the next
`raw_siglen / 2` bytes (integer division, as in the C source). -/
def ecdsa_der (bytes : List Nat) (raw_siglen : Nat) : List Nat :=
  i2d_ECDSA_SIG_model
    (bin2bn (bytes.take (raw_siglen / 2)))
    (bin2bn ((bytes.drop (raw_siglen / 2)).take (raw_siglen / 2)))

/-- Observable outcome of one `ossl_ecdsa_signature` call: the return code
(`true` = `OSSL_RV_OK`), the value stored through `siglen` (`none` when the
call leaves `*siglen` untouched), and the bytes written to the `sig` buffer
(`none` when nothing is written). -/
structure EcdsaSigResult where
  rc : Bool
  siglen_out : Option Nat
  out_written : Option (List Nat)
deriving DecidableEq

/-- `ossl_ecdsa_signature` (src/ossl.c:74-123).  `raw_sig = none` models a
NULL `raw_sig` pointer; `sig : Bool` tells whether the output buffer pointer
is non-NULL, and `siglen` is the entry value of `*siglen` (the capacity).
The allocation-failure paths of `ECDSA_SIG_new`/`ECDSA_SIG_set0` and the
`derlen <= 0` failure of `i2d_ECDSA_SIG` are kept as in the source, with
allocation modelled as always succeeding. -/
def ossl_ecdsa_signature (raw_sig : Option (List Nat)) (raw_siglen : Nat)
    (sig : Bool) (siglen : Nat) : EcdsaSigResult :=
  if raw_sig = none ∨ raw_siglen = 0 then ⟨false, none, none⟩
  else
    let der := ecdsa_der (raw_sig.getD []) raw_siglen
    if der.length = 0 then ⟨false, none, none⟩
    else if sig = false then ⟨true, some der.length, none⟩
    else if siglen < der.length then ⟨false, none, none⟩
    else ⟨true, some der.length, some der⟩

theorem ecdsa_der_length_pos (bytes : List Nat) (raw_siglen : Nat) :
    0 < (ecdsa_der bytes raw_siglen).length := by
  simp [ecdsa_der, i2d_ECDSA_SIG_model]

/- ===================== Backend resolver (src/ossl.c:146-251) ============ -/

/-- `OSSL_OP__HIGHEST` from openssl/core_dispatch.h (OpenSSL 3.x). -/
def OSSL_OP__HIGHEST : Int := 22

def OSSL_OP_KEYMGMT : Int := 10
def OSSL_OP_KEYEXCH : Int := 11
def OSSL_OP_SIGNATURE : Int := 12
def OSSL_OP_ASYM_CIPHER : Int := 13

/-- `EVP_PKEY_RSA` (= NID_rsaEncryption). -/
def EVP_PKEY_RSA : Int := 6
/-- `EVP_PKEY_RSA_PSS` (= NID_rsassaPss). -/
def EVP_PKEY_RSA_PSS : Int := 912
/-- `EVP_PKEY_EC` (= NID_X9_62_id_ecPublicKey). -/
def EVP_PKEY_EC : Int := 408

/-- One `OSSL_DISPATCH` entry: a function id and the function it carries
(functions are modelled by numeric tokens; the terminating entry with
`function_id = 0` is not part of the list). -/
structure OsslDispatch where
  function_id : Int
  func : Nat
deriving DecidableEq

/-- One `OSSL_ALGORITHM` table entry: the colon-delimited alias string and
the dispatch table (the terminating entry with NULL `algorithm_names` is
not part of the list). -/
structure OsslAlgorithm where
  algorithm_names : List Char
  implementation : List OsslDispatch
deriving DecidableEq

/-- The loaded backend, reduced to its query interface:
`query op = (table-or-NULL, no_cache flag)` models
`OSSL_PROVIDER_query_operation(provider, op, &no_cache)`.  The backend is a
deterministic test double: repeated queries return the same answer. -/
structure Backend where
  query : Int → Option (List OsslAlgorithm) × Bool

/-- `struct ossl_provider`: the loaded provider (NULL when not loaded) and
the per-operation algorithm-table cache `alg_cache`. -/
structure OsslProvider where
  provider : Option Backend
  alg_cache : Int → Option (List OsslAlgorithm)

/-- Whether the pattern occurs (ASCII case-insensitively) in `hay` at
position `i`; false when fewer than `pat.length` characters remain. -/
def casestrAt (hay pat : List Char) (i : Nat) : Bool :=
  decide (((hay.drop i).take pat.length).map Char.toLower = pat.map Char.toLower)

/-- `strcasestr(hay, pat)`: position of the first case-insensitive
occurrence of `pat` in `hay`, or `none`. -/
def strcasestrIdx (hay pat : List Char) : Option Nat :=
  (List.range (hay.length + 1)).find? (fun i => casestrAt hay pat i)

/-- The two boundary tests of src/ossl.c:177-180 on an occurrence of
`name` at position `i` of the alias string `names`:
`found[algolen]` is the terminator or a colon, and the occurrence starts
the string or follows a colon. -/
def boundsOk (name names : List Char) (i : Nat) : Bool :=
  (decide (i + name.length = names.length) ||
    decide (names.get? (i + name.length) = some ':')) &&
  (decide (i = 0) || decide (names.get? (i - 1) = some ':'))

/-- The per-entry alias test of the scan loop (src/ossl.c:172-180): the
first case-insensitive occurrence of `name` found by `strcasestr` is bounds
checked; when the bounds fail the loop continues with the next entry, no
further occurrence in the same alias string is tried. -/
def entryMatch (name names : List Char) : Bool :=
  match strcasestrIdx names name with
  | none => false
  | some i => boundsOk name names i

/-- The inner dispatch scan (src/ossl.c:183-188): first entry with the
wanted function id, stopping at a terminating id of 0. -/
def implFind (impl : List OsslDispatch) (function_id : Int) : Option Nat :=
  ((impl.takeWhile (fun d => decide (d.function_id ≠ 0))).find?
      (fun d => decide (d.function_id = function_id))).map (fun d => d.func)

/-- The entry scan of src/ossl.c:172-190: first entry whose alias list
matches, then its dispatch table is searched; the outer loop breaks after
the first matching entry whether or not the function id was found. -/
def scanAlgs (algs : List OsslAlgorithm) (algorithm : List Char)
    (function_id : Int) : Option Nat :=
  match algs.find? (fun a => entryMatch algorithm a.algorithm_names) with
  | none => none
  | some a => implFind a.implementation function_id

/-- Counters for the backend calls one `fwd_get_func` call makes:
`OSSL_PROVIDER_query_operation` and `OSSL_PROVIDER_unquery_operation`. -/
structure FwdEvents where
  queries : Nat
  unqueries : Nat
deriving DecidableEq

/-- Result of the body of `fwd_get_func` after validation: the resolved
function, the handle's cache after the call, and the backend-call events. -/
structure FwdResult where
  func : Option Nat
  cache : Int → Option (List OsslAlgorithm)
  events : FwdEvents

/-- src/ossl.c:164-202, the body of `fwd_get_func` after validation.
Branches: cache hit (no query, no unquery, cache unchanged); fresh query
returning NULL (no unquery; NULL stored when `no_cache` is clear, which
leaves the slot empty); fresh query returning a table (unquery always,
store into the empty slot when `no_cache` is clear). -/
def fwd_get_func_core (prov : Backend) (cache : Int → Option (List OsslAlgorithm))
    (operation_id : Int) (algorithm : List Char) (function_id : Int) : FwdResult :=
  match cache operation_id with
  | some t => ⟨scanAlgs t algorithm function_id, cache, ⟨0, 0⟩⟩
  | none =>
    match prov.query operation_id with
    | (none, no_cache) =>
      ⟨none,
       if no_cache = false then
         (fun op => if op = operation_id then none else cache op)
       else cache,
       ⟨1, 0⟩⟩
    | (some algs, no_cache) =>
      ⟨scanAlgs algs algorithm function_id,
       if no_cache = false then
         (fun op => if op = operation_id then some algs else cache op)
       else cache,
       ⟨1, 1⟩⟩

/-- `fwd_get_func` (src/ossl.c:146-203).  `algorithm = none` models a NULL
`algorithm` pointer: the function computes `strlen(algorithm)` at entry
(src/ossl.c:152) before any check, so a NULL name is undefined behaviour,
modelled as the outer `none`.  Otherwise the result is the resolved
function, the provider state after the call and the backend-call events. -/
def fwd_get_func (fwd : Option OsslProvider) (operation_id : Int)
    (algorithm : Option (List Char)) (function_id : Int) :
    Option (Option Nat × Option OsslProvider × FwdEvents) :=
  match algorithm with
  | none => none
  | some alg =>
    match fwd with
    | none => some (none, none, ⟨0, 0⟩)
    | some f =>
      match f.provider with
      | none => some (none, some f, ⟨0, 0⟩)
      | some prov =>
        if operation_id ≤ 0 ∨ OSSL_OP__HIGHEST < operation_id then
          some (none, some f, ⟨0, 0⟩)
        else
          let r := fwd_get_func_core prov f.alg_cache operation_id alg function_id
          some (r.func, some { f with alg_cache := r.cache }, r.events)

/-- `fwd_get_algo` (src/ossl.c:205-220). -/
def fwd_get_algo (pkey_type : Int) (sign : Bool) : Option (List Char) :=
  if pkey_type = EVP_PKEY_RSA then some ("RSA".toList)
  else if pkey_type = EVP_PKEY_RSA_PSS then some ("RSA-PSS".toList)
  else if pkey_type = EVP_PKEY_EC then
    (if sign then some ("ECDSA".toList) else some ("EC".toList))
  else none

/-- `fwd_keymgmt_get_func` (src/ossl.c:222-228). -/
def fwd_keymgmt_get_func (fwd : Option OsslProvider) (pkey_type : Int)
    (function_id : Int) : Option (Option Nat × Option OsslProvider × FwdEvents) :=
  fwd_get_func fwd OSSL_OP_KEYMGMT (fwd_get_algo pkey_type false) function_id

/-- `fwd_keyexch_get_func` (src/ossl.c:230-235). -/
def fwd_keyexch_get_func (fwd : Option OsslProvider)
    (function_id : Int) : Option (Option Nat × Option OsslProvider × FwdEvents) :=
  fwd_get_func fwd OSSL_OP_KEYEXCH (some ("ECDH".toList)) function_id

/-- `fwd_asym_get_func` (src/ossl.c:237-243). -/
def fwd_asym_get_func (fwd : Option OsslProvider) (pkey_type : Int)
    (function_id : Int) : Option (Option Nat × Option OsslProvider × FwdEvents) :=
  fwd_get_func fwd OSSL_OP_ASYM_CIPHER (fwd_get_algo pkey_type false) function_id

/-- `fwd_sign_get_func` (src/ossl.c:245-251). -/
def fwd_sign_get_func (fwd : Option OsslProvider) (pkey_type : Int)
    (function_id : Int) : Option (Option Nat × Option OsslProvider × FwdEvents) :=
  fwd_get_func fwd OSSL_OP_SIGNATURE (fwd_get_algo pkey_type true) function_id

/- ===================== Spec-side predicate for alias matching =========== -/

/-- A case-insensitive occurrence of `name` at position `i` of `names` that
is bounded on both sides by the string start/end or a colon. -/
def boundedOccAt (name names : List Char) (i : Nat) : Bool :=
  casestrAt names name i && boundsOk name names i

/-- Modelled from the spec's words (spec section 4.3, step 3): the name
"appears in the entry's colon-delimited alias list as a whole alias (must
be bounded by string start/end or colon on both sides)" — some occurrence,
not necessarily the first, is bounded.  Stated of case-insensitive
occurrences, the case discipline the spec leaves open. -/
def wholeAliasSpec (name names : List Char) : Bool :=
  (List.range (names.length + 1)).any (fun i => boundedOccAt name names i)

/- ===================== Codec claims ==================================== -/

theorem length_ne_zero_of_ne_nil {bytes : List Nat} (hne : bytes ≠ []) :
    bytes.length ≠ 0 :=
  fun h => hne (List.length_eq_zero.mp h)

theorem ecdsa_der_length_ne_zero (bytes : List Nat) (raw_siglen : Nat) :
    (ecdsa_der bytes raw_siglen).length ≠ 0 :=
  Nat.pos_iff_ne_zero.mp (ecdsa_der_length_pos bytes raw_siglen)

/-- Claim C8: when the raw signature pointer is NULL or the raw length is
zero, `ossl_ecdsa_signature` fails and writes neither `*siglen` nor the
output buffer. -/
theorem ecdsa_invalid_param (raw_sig : Option (List Nat)) (raw_siglen : Nat)
    (sig : Bool) (siglen : Nat) (h : raw_sig = none ∨ raw_siglen = 0) :
    ossl_ecdsa_signature raw_sig raw_siglen sig siglen = ⟨false, none, none⟩ := by
  unfold ossl_ecdsa_signature
  rw [if_pos h]

/-- Witness for C8 at the two concrete calls of the spec's test:
a NULL buffer with length 0, and a non-NULL buffer with length 0. -/
theorem ecdsa_invalid_param_witness :
    ossl_ecdsa_signature none 0 false 0 = ⟨false, none, none⟩ ∧
    ossl_ecdsa_signature (some [1, 2]) 0 true 9 = ⟨false, none, none⟩ :=
  ⟨ecdsa_invalid_param none 0 false 0 (Or.inl rfl),
   ecdsa_invalid_param (some [1, 2]) 0 true 9 (Or.inr rfl)⟩

/-- Claim C6: in encoding mode an output capacity below the required DER
length makes `ossl_ecdsa_signature` fail with nothing written, and a
sufficient capacity makes it write the encoding and set `*siglen` to the
written length. -/
theorem ecdsa_encode_capacity (bytes : List Nat) (hne : bytes ≠ [])
    (_heven : bytes.length % 2 = 0) (cap : Nat) :
    (cap < (ecdsa_der bytes bytes.length).length →
      ossl_ecdsa_signature (some bytes) bytes.length true cap = ⟨false, none, none⟩) ∧
    ((ecdsa_der bytes bytes.length).length ≤ cap →
      ossl_ecdsa_signature (some bytes) bytes.length true cap =
        ⟨true, some (ecdsa_der bytes bytes.length).length,
          some (ecdsa_der bytes bytes.length)⟩) := by
  have hlen : bytes.length ≠ 0 := length_ne_zero_of_ne_nil hne
  have h1 : (ecdsa_der bytes bytes.length).length ≠ 0 :=
    ecdsa_der_length_ne_zero bytes bytes.length
  constructor
  · intro hcap
    simp [ossl_ecdsa_signature, hlen, h1, hcap]
  · intro hcap
    simp [ossl_ecdsa_signature, hlen, h1, Nat.not_lt.mpr hcap]

/-- Witness for C6 at raw signature [1, 2]: required length 8, capacity 7
(one byte short) fails with nothing written, capacity 8 succeeds. -/
theorem ecdsa_encode_capacity_witness :
    ossl_ecdsa_signature (some [1, 2]) 2 true 7 = ⟨false, none, none⟩ ∧
    ossl_ecdsa_signature (some [1, 2]) 2 true 8 =
      ⟨true, some 8, some [48, 6, 2, 1, 1, 2, 1, 2]⟩ := by
  have h := ecdsa_encode_capacity [1, 2] (by decide) (by decide)
  exact ⟨(h 7).1 (by decide), (h 8).2 (by decide)⟩

/-- Claim C7: sizing mode (NULL output buffer) succeeds, stores the
required DER length in `*siglen` and writes no bytes, and that length
equals both the length value and the byte count a subsequent
encoding-mode call with sufficient capacity produces. -/
theorem ecdsa_sizing_length (bytes : List Nat) (hne : bytes ≠ []) (cap0 cap : Nat)
    (hcap : (ecdsa_der bytes bytes.length).length ≤ cap) :
    ossl_ecdsa_signature (some bytes) bytes.length false cap0 =
      ⟨true, some (ecdsa_der bytes bytes.length).length, none⟩ ∧
    (ossl_ecdsa_signature (some bytes) bytes.length true cap).out_written =
      some (ecdsa_der bytes bytes.length) ∧
    (ossl_ecdsa_signature (some bytes) bytes.length true cap).siglen_out =
      some ((ecdsa_der bytes bytes.length).length) := by
  have hlen : bytes.length ≠ 0 := length_ne_zero_of_ne_nil hne
  have h1 : (ecdsa_der bytes bytes.length).length ≠ 0 :=
    ecdsa_der_length_ne_zero bytes bytes.length
  refine ⟨?_, ?_, ?_⟩ <;>
    simp [ossl_ecdsa_signature, hlen, h1, Nat.not_lt.mpr hcap]

/-- Witness for C7 at raw signature [1, 2]: sizing reports 8, and the
encode call with capacity 8 writes exactly 8 bytes. -/
theorem ecdsa_sizing_length_witness :
    ossl_ecdsa_signature (some [1, 2]) 2 false 0 = ⟨true, some 8, none⟩ ∧
    (ossl_ecdsa_signature (some [1, 2]) 2 true 8).out_written =
      some [48, 6, 2, 1, 1, 2, 1, 2] := by
  have h := ecdsa_sizing_length [1, 2] (by decide) 0 8 (by decide)
  exact ⟨h.1, h.2.1⟩

/-- Counterexample to claim C5: the odd raw length 3 is not rejected —
the call succeeds (sizing mode reports the 8-byte DER encoding of the
two 1-byte integers 1 and 2, the third byte ignored). -/
theorem ecdsa_odd_succeeds_cex :
    ossl_ecdsa_signature (some [1, 2, 3]) 3 false 0 = ⟨true, some 8, none⟩ := by
  decide

/-- Claim C5 as amended: an odd raw length is not rejected;
`ossl_ecdsa_signature` succeeds and encodes the buffer as two big-endian
integers of `rawLen / 2` (floor) bytes each, the final byte ignored. -/
theorem ecdsa_odd_length_encodes (bytes : List Nat) (hodd : bytes.length % 2 = 1) :
    ossl_ecdsa_signature (some bytes) bytes.length false 0 =
      ⟨true, some (ecdsa_der bytes bytes.length).length, none⟩ ∧
    ecdsa_der bytes bytes.length =
      i2d_ECDSA_SIG_model (bin2bn (bytes.take (bytes.length / 2)))
        (bin2bn ((bytes.drop (bytes.length / 2)).take (bytes.length / 2))) := by
  have hlen : bytes.length ≠ 0 := by omega
  have h1 : (ecdsa_der bytes bytes.length).length ≠ 0 :=
    ecdsa_der_length_ne_zero bytes bytes.length
  exact ⟨by simp [ossl_ecdsa_signature, hlen, h1], rfl⟩

/-- Witness for the amended C5 at the odd-length buffer [1, 2, 3]. -/
theorem ecdsa_odd_length_encodes_witness :
    ossl_ecdsa_signature (some [1, 2, 3]) 3 false 0 =
      ⟨true, some (ecdsa_der [1, 2, 3] 3).length, none⟩ :=
  (ecdsa_odd_length_encodes [1, 2, 3] (by decide)).1

/-- Claim C10: `ossl_ecdsa_signature` reports one binary status — its
return code is the single error value `OSSL_RV_ERR` (false) exactly on
the union of the failure causes (NULL or zero-length input, and, in
encoding mode, insufficient capacity), so the return value cannot tell
an InvalidParam condition from an InternalError condition. -/
theorem ecdsa_rc_single_error (raw_sig : Option (List Nat)) (raw_siglen : Nat)
    (sig : Bool) (siglen : Nat) :
    (ossl_ecdsa_signature raw_sig raw_siglen sig siglen).rc = false ↔
      (raw_sig = none ∨ raw_siglen = 0 ∨
        (sig = true ∧ siglen < (ecdsa_der (raw_sig.getD []) raw_siglen).length)) := by
  rcases raw_sig with _ | bytes
  · simp [ossl_ecdsa_signature]
  · by_cases hl : raw_siglen = 0
    · simp [ossl_ecdsa_signature, hl]
    · have h1 : (ecdsa_der bytes raw_siglen).length ≠ 0 :=
        ecdsa_der_length_ne_zero bytes raw_siglen
      cases sig
      · simp [ossl_ecdsa_signature, hl, h1]
      · by_cases hc : siglen < (ecdsa_der bytes raw_siglen).length
        · simp [ossl_ecdsa_signature, hl, h1, hc]
        · simp [ossl_ecdsa_signature, hl, h1, hc]

/-- Witness for C10: a NULL-input failure and an insufficient-buffer
failure return the same error value. -/
theorem ecdsa_rc_single_error_witness :
    (ossl_ecdsa_signature none 5 true 100).rc = false ∧
    (ossl_ecdsa_signature (some [1, 2]) 2 true 7).rc =
      (ossl_ecdsa_signature none 5 true 100).rc :=
  ⟨(ecdsa_rc_single_error none 5 true 100).mpr (Or.inl rfl), by decide⟩

/- ===================== Resolver fixtures ================================ -/

/-- A table entry whose alias list is "AB:B": the name "B" is a whole alias
of it, but its first case-insensitive occurrence (inside "AB") is unbounded. -/
def entryAB_B : OsslAlgorithm := ⟨"AB:B".toList, [⟨7, 42⟩]⟩

/-- A backend whose every operation offers only `entryAB_B`, cacheable. -/
def backendAB_B : Backend := ⟨fun _ => (some [entryAB_B], false)⟩

/-- A loaded handle over `backendAB_B` with an empty cache. -/
def fwdAB_B : OsslProvider := ⟨some backendAB_B, fun _ => none⟩

/-- The spec's end-to-end entry: algorithm "ECDSA", function id 7 mapped to
the function token 42. -/
def entryECDSA : OsslAlgorithm := ⟨"ECDSA".toList, [⟨7, 42⟩]⟩

/-- A backend whose every operation offers `entryECDSA` and marks the query
result cacheable (`no_cache` clear). -/
def backendCacheable : Backend := ⟨fun _ => (some [entryECDSA], false)⟩

/-- A loaded handle over `backendCacheable` with an empty cache. -/
def fwdCacheable : OsslProvider := ⟨some backendCacheable, fun _ => none⟩

/- ===================== Resolver claims ================================== -/

/-- Counterexample to claim C1: resolving "B" against a handle whose only
table entry has alias list "AB:B" returns no function, although "B" occurs
in that alias list as a whole alias. -/
theorem alias_whole_not_selected_cex :
    (fwd_get_func (some fwdAB_B) OSSL_OP_SIGNATURE (some ("B".toList)) 7).map
      (fun r => r.1) = some none ∧
    wholeAliasSpec ("B".toList) ("AB:B".toList) = true :=
  ⟨rfl, by decide⟩

/-- Claim C1 as amended: an entry is selected only if the name occurs
case-insensitively in its colon-delimited alias list as a whole alias
(bounded by string start/end or colon on both sides); the converse fails,
because only the first case-insensitive occurrence is bounds-checked —
the entry aliased "AB:B" is not selected for the name "B".  The claim's
examples hold: "B" matches "A:B:C", and "AB" does not match "A:B". -/
theorem alias_whole_match :
    (∀ name names, entryMatch name names = true → wholeAliasSpec name names = true) ∧
    entryMatch ("B".toList) ("A:B:C".toList) = true ∧
    entryMatch ("AB".toList) ("A:B".toList) = false ∧
    entryMatch ("B".toList) ("AB:B".toList) = false := by
  refine ⟨?_, by decide, by decide, by decide⟩
  intro name names h
  unfold entryMatch at h
  rcases hfind : strcasestrIdx names name with _ | i
  · rw [hfind] at h
    exact absurd h (by simp)
  · rw [hfind] at h
    have hfind' : (List.range (names.length + 1)).find?
        (fun i => casestrAt names name i) = some i := hfind
    have hmem : i ∈ List.range (names.length + 1) :=
      List.mem_of_find?_eq_some hfind'
    have hp : casestrAt names name i = true := List.find?_some hfind'
    unfold wholeAliasSpec
    rw [List.any_eq_true]
    refine ⟨i, hmem, ?_⟩
    simp only [boundedOccAt, Bool.and_eq_true]
    exact ⟨hp, h⟩

/-- Witness for the amended C1: the selected entry "A:B:C" for the name
"B" indeed carries "B" as a whole alias. -/
theorem alias_whole_match_witness :
    wholeAliasSpec ("B".toList) ("A:B:C".toList) = true :=
  alias_whole_match.1 ("B".toList) ("A:B:C".toList) (by decide)

/-- Counterexample to claim C9: "b" differs only in letter case from "B",
a whole alias of the entry aliased "AB:B" (so the spec-side whole-alias
predicate holds for it), yet the entry does not match "b". -/
theorem alias_case_variant_no_match_cex :
    entryMatch ("b".toList) ("AB:B".toList) = false ∧
    wholeAliasSpec ("b".toList) ("AB:B".toList) = true := by
  decide

/-- Claim C9 as amended: alias matching is case-blind — two algorithm
names equal up to ASCII letter case produce the same match outcome
against every alias list (so a case variant of a name matches whenever
the name itself does; a case variant of a whole alias still fails when
the alias itself fails the first-occurrence bounds check). -/
theorem alias_match_case_blind (name name' names : List Char)
    (h : name.map Char.toLower = name'.map Char.toLower) :
    entryMatch name names = entryMatch name' names := by
  have hlen : name.length = name'.length := by
    have h2 := congrArg List.length h
    simpa using h2
  have hfun : (fun i => casestrAt names name i) =
      (fun i => casestrAt names name' i) := by
    funext i
    unfold casestrAt
    rw [hlen, h]
  have hidx : strcasestrIdx names name = strcasestrIdx names name' := by
    unfold strcasestrIdx
    rw [hfun]
  unfold entryMatch
  rw [hidx]
  cases hh : strcasestrIdx names name' with
  | none => rfl
  | some i =>
    show boundsOk name names i = boundsOk name' names i
    unfold boundsOk
    rw [hlen]

/-- Witness for the amended C9: "rsa" and "RSA" agree against the alias
list "RSA" (both match it). -/
theorem alias_match_case_blind_witness :
    entryMatch ("rsa".toList) ("RSA".toList) =
      entryMatch ("RSA".toList) ("RSA".toList) :=
  alias_match_case_blind ("rsa".toList) ("RSA".toList) ("RSA".toList) (by decide)

/-- Counterexample to claim C2: with a backend that allows caching
(`no_cache` clear), a fresh query is still released — the call performs
one `OSSL_PROVIDER_unquery_operation`. -/
theorem fwd_unquery_though_cacheable_cex :
    (fwd_get_func (some fwdCacheable) OSSL_OP_SIGNATURE (some ("ECDSA".toList)) 7).map
      (fun r => r.2.2.unqueries) = some 1 ∧
    (backendCacheable.query OSSL_OP_SIGNATURE).2 = false :=
  ⟨rfl, rfl⟩

/-- Claim C2 as amended: in a call that freshly queries the backend, a
non-NULL query result is unqueried after use regardless of the
cacheability flag (and a NULL result is not); when the backend allowed
caching the result is moreover stored in the handle's empty cache slot
for that operation kind. -/
theorem fwd_unquery_and_store (prov : Backend)
    (cache : Int → Option (List OsslAlgorithm)) (op : Int)
    (alg : List Char) (fid : Int) (h : cache op = none) :
    (fwd_get_func_core prov cache op alg fid).events.unqueries =
      (if (prov.query op).1 = none then 0 else 1) ∧
    ((prov.query op).2 = false →
      (fwd_get_func_core prov cache op alg fid).cache op = (prov.query op).1) := by
  rcases hq : prov.query op with ⟨t, nc⟩
  cases t <;> cases nc <;> simp [fwd_get_func_core, h, hq]

/-- Witness for the amended C2 at the cacheable fixture backend. -/
theorem fwd_unquery_and_store_witness :
    (fwd_get_func_core backendCacheable (fun _ => none) 12
        ("ECDSA".toList) 7).events.unqueries =
      (if (backendCacheable.query 12).1 = none then 0 else 1) ∧
    ((backendCacheable.query 12).2 = false →
      (fwd_get_func_core backendCacheable (fun _ => none) 12
          ("ECDSA".toList) 7).cache 12 = (backendCacheable.query 12).1) :=
  fwd_unquery_and_store backendCacheable (fun _ => none) 12 ("ECDSA".toList) 7 rfl

/-- Claim C4: (1) with a cacheable non-NULL query result, the first call
on an empty slot queries once and a second call for the same
{handle, operation kind} queries zero times and resolves the same
function from the cached table; (2) with a non-cacheable result every
resolution queries the backend and the slot stays empty afterwards;
(3) a populated cache slot is never overwritten by any later call. -/
theorem fwd_cache_discipline :
    (∀ (prov : Backend) (cache : Int → Option (List OsslAlgorithm)) (op : Int)
        (alg : List Char) (fid : Int) (t : List OsslAlgorithm),
        prov.query op = (some t, false) → cache op = none →
        (fwd_get_func_core prov cache op alg fid).events.queries = 1 ∧
        (fwd_get_func_core prov (fwd_get_func_core prov cache op alg fid).cache
            op alg fid).events.queries = 0 ∧
        (fwd_get_func_core prov (fwd_get_func_core prov cache op alg fid).cache
            op alg fid).func = (fwd_get_func_core prov cache op alg fid).func) ∧
    (∀ (prov : Backend) (cache : Int → Option (List OsslAlgorithm)) (op : Int)
        (alg : List Char) (fid : Int) (res : Option (List OsslAlgorithm)),
        prov.query op = (res, true) → cache op = none →
        (fwd_get_func_core prov cache op alg fid).events.queries = 1 ∧
        (fwd_get_func_core prov cache op alg fid).cache op = none) ∧
    (∀ (prov : Backend) (cache : Int → Option (List OsslAlgorithm)) (op op' : Int)
        (alg : List Char) (fid : Int) (t : List OsslAlgorithm),
        cache op = some t →
        (fwd_get_func_core prov cache op' alg fid).cache op = some t) := by
  refine ⟨?_, ?_, ?_⟩
  · intro prov cache op alg fid t hq hc
    simp [fwd_get_func_core, hq, hc]
  · intro prov cache op alg fid res hq hc
    cases res <;> simp [fwd_get_func_core, hq, hc]
  · intro prov cache op op' alg fid t hc
    cases hco : cache op' with
    | some u => simp [fwd_get_func_core, hco, hc]
    | none =>
      have hne : op ≠ op' := fun he => by
        rw [he, hco] at hc
        cases hc
      rcases hq : prov.query op' with ⟨tbl, nc⟩
      cases tbl <;> cases nc <;> simp [fwd_get_func_core, hco, hq, hc, hne]

/-- Witness for C4 at the cacheable fixture: the first resolution on an
empty slot queries the backend exactly once. -/
theorem fwd_cache_discipline_witness :
    (fwd_get_func_core backendCacheable (fun _ => none) 12
        ("ECDSA".toList) 7).events.queries = 1 :=
  (fwd_cache_discipline.1 backendCacheable (fun _ => none) 12
    ("ECDSA".toList) 7 [entryECDSA] rfl rfl).1

/-- Claim C3 (the code slip): `fwd_get_algo` yields a NULL algorithm name
for the unrecognized key type 0, and `fwd_sign_get_func` on a valid
loaded handle then reaches `strlen(NULL)` at fwd_get_func entry
(src/ossl.c:152) — undefined behaviour, modelled as `none` — instead of
returning a NULL function reference. -/
theorem fwd_null_algo_ub :
    fwd_get_algo 0 true = none ∧
    fwd_sign_get_func (some fwdCacheable) 0 7 = none :=
  ⟨rfl, rfl⟩
